import Mathlib

/-!
# Verification of the ai-trader order submission and reconciliation core

This file gives a shallow embedding in Lean 4 of the core of the `ai-trader`
repository — the idempotency state (`src/app/state.py`), the risk guard engine
(`src/risk/manager.py`), the order submission pipeline
(`src/app/order_pipeline.py`) and the broker reconciliation
(`src/app/reconciliation.py`) — and proves properties of that embedding.

Conventions of the embedding:
* Python `Decimal` values are represented by `ℚ` (the code only performs exact
  decimal arithmetic: `+`, `-`, `*`, `/`, comparisons).
* Python `dict[str, T]` values are represented by association lists
  `List (String × T)` with unique keys, with dict operations given below
  (`lookupA`, `setA`, `eraseA`); `set[str]` is represented by `Finset String`.
* File and broker I/O is made explicit: the data that the code reads is passed
  in as arguments (`Option`/`Except` for absent/corrupt/raising sources), and
  the side effects the code performs (broker calls, CSV audit writes,
  `save_state` calls) are returned as counters in the result.
* `datetime` values are represented by a `Timestamp` record of calendar
  fields, which is all the code inspects (`strftime`).
-/

set_option autoImplicit false

namespace AiTrader

/-! ## Association lists: the embedding of Python dicts -/

/-- `d.get(key)` on a Python dict represented as an association list. -/
def lookupA {α : Type} : List (String × α) → String → Option α
  | [], _ => none
  | (k, v) :: t, s => if k = s then some v else lookupA t s

/-- `d[key] = v` on a Python dict: replace the binding if the key is present,
otherwise append a new binding. -/
def setA {α : Type} : List (String × α) → String → α → List (String × α)
  | [], s, v => [(s, v)]
  | (k, w) :: t, s, v => if k = s then (k, v) :: t else (k, w) :: setA t s v

/-- `del d[key]` on a Python dict. -/
def eraseA {α : Type} (l : List (String × α)) (s : String) : List (String × α) :=
  l.filter (fun p => p.1 ≠ s)

@[simp] theorem lookupA_nil {α : Type} (s : String) : lookupA ([] : List (String × α)) s = none :=
  rfl

@[simp] theorem lookupA_cons {α : Type} (k : String) (v : α) (t : List (String × α)) (s : String) :
    lookupA ((k, v) :: t) s = if k = s then some v else lookupA t s := rfl

theorem lookupA_eq_none_iff {α : Type} (l : List (String × α)) (s : String) :
    lookupA l s = none ↔ s ∉ l.map Prod.fst := by
  induction l with
  | nil => simp
  | cons p t ih =>
    obtain ⟨k, v⟩ := p
    by_cases h : k = s
    · subst h
      simp
    · rw [List.map_cons, lookupA_cons, if_neg h, ih]
      constructor
      · intro h1 h2
        rcases List.mem_cons.mp h2 with h2 | h2
        · exact h h2.symm
        · exact h1 h2
      · intro h1 h2
        exact h1 (List.mem_cons_of_mem _ h2)

theorem lookupA_eq_some_mem {α : Type} {l : List (String × α)} {s : String} {v : α}
    (h : lookupA l s = some v) : (s, v) ∈ l := by
  induction l with
  | nil => simp at h
  | cons p t ih =>
    obtain ⟨k, w⟩ := p
    by_cases hk : k = s
    · subst hk
      simp at h
      simp [h]
    · simp [hk] at h
      exact List.mem_cons_of_mem _ (ih h)

theorem lookupA_of_mem {α : Type} {l : List (String × α)} {s : String} {v : α}
    (hnd : (l.map Prod.fst).Nodup) (h : (s, v) ∈ l) : lookupA l s = some v := by
  induction l with
  | nil => simp at h
  | cons p t ih =>
    obtain ⟨k, w⟩ := p
    simp at hnd
    rcases List.mem_cons.mp h with h1 | h1
    · cases h1
      simp
    · have hks : k ≠ s := by
        intro hk
        subst hk
        exact hnd.1 v (by simpa using h1)
      simp [hks, ih hnd.2 h1]

@[simp] theorem lookupA_setA_self {α : Type} (l : List (String × α)) (s : String) (v : α) :
    lookupA (setA l s v) s = some v := by
  induction l with
  | nil => simp [setA]
  | cons p t ih =>
    obtain ⟨k, w⟩ := p
    by_cases h : k = s <;> simp [setA, h, ih]

theorem lookupA_setA_ne {α : Type} (l : List (String × α)) (s s' : String) (v : α)
    (h : s ≠ s') : lookupA (setA l s v) s' = lookupA l s' := by
  induction l with
  | nil => simp [setA, h]
  | cons p t ih =>
    obtain ⟨k, w⟩ := p
    by_cases hk : k = s
    · subst hk
      simp [setA, h]
    · simp [setA, hk, ih]

@[simp] theorem lookupA_eraseA_self {α : Type} (l : List (String × α)) (s : String) :
    lookupA (eraseA l s) s = none := by
  induction l with
  | nil => simp [eraseA]
  | cons p t ih =>
    obtain ⟨k, w⟩ := p
    by_cases h : k = s
    · subst h
      simpa [eraseA] using ih
    · simpa [eraseA, h] using ih

theorem lookupA_eraseA_ne {α : Type} (l : List (String × α)) (s s' : String)
    (h : s ≠ s') : lookupA (eraseA l s) s' = lookupA l s' := by
  induction l with
  | nil => simp [eraseA]
  | cons p t ih =>
    obtain ⟨k, w⟩ := p
    by_cases hk : k = s
    · have he : eraseA ((k, w) :: t) s = eraseA t s := by simp [eraseA, hk]
      rw [he, ih, lookupA_cons, if_neg (fun hq => h (hk.symm.trans hq))]
    · by_cases hk' : k = s'
      · subst hk'
        simp [eraseA, hk]
      · simpa [eraseA, hk, hk'] using ih

/-! ## Timestamps and `strftime`

`datetime.strftime` is modelled for the directives the code uses
(`%Y %m %d %H %M %S`), zero-padding each calendar field. -/

/-- Calendar fields of a `datetime`; this is all the modelled code inspects. -/
structure Timestamp where
  year : Nat
  month : Nat
  day : Nat
  hour : Nat
  minute : Nat
  second : Nat
  deriving DecidableEq, Repr

/-- Zero-pad the decimal representation of `n` to width `w`. -/
def pad (w : Nat) (n : Nat) : String :=
  String.mk (List.replicate (w - (toString n).length) '0') ++ toString n

/-- `ts.strftime(fmt)` for the directives used in the code. Unknown directives
are kept verbatim, as are literal characters. -/
def strftimeAux (ts : Timestamp) : List Char → String
  | [] => ""
  | '%' :: c :: rest =>
    (if c = 'Y' then pad 4 ts.year
     else if c = 'm' then pad 2 ts.month
     else if c = 'd' then pad 2 ts.day
     else if c = 'H' then pad 2 ts.hour
     else if c = 'M' then pad 2 ts.minute
     else if c = 'S' then pad 2 ts.second
     else String.mk ['%', c]) ++ strftimeAux ts rest
  | c :: rest => String.mk [c] ++ strftimeAux ts rest

def Timestamp.strftime (ts : Timestamp) (fmt : String) : String :=
  strftimeAux ts fmt.data

/-! ## `src/app/state.py` -/

/-- `BotState` (pydantic model in `src/app/state.py`). `daily_realized_pnl`
maps a date key to a decimal string, represented here by its value in `ℚ`. -/
structure BotState where
  run_id : String
  last_processed_timestamp : List (String × String) := []
  submitted_client_order_ids : Finset String := ∅
  daily_realized_pnl : List (String × ℚ) := []
  daily_date : Option String := none
  deriving DecidableEq

/-- `load_state` from `src/app/state.py`. The file system read is passed in as
`stored`: `none` when the state file does not exist, `some none` when its
contents raise during JSON parsing / model validation, and `some (some st)`
for a successfully parsed state. `today` is `get_today_date_eastern()`. -/
def load_state (stored : Option (Option BotState)) (today : String) : BotState :=
  match stored with
  | none => { run_id := "initial", daily_date := some today }
  | some none => { run_id := "initial", daily_date := some today }
  | some (some st) =>
    if st.daily_date ≠ some today then
      { st with daily_date := some today }
    else
      st

/-- `get_daily_realized_pnl` from `src/app/state.py`: the stored decimal
string for the date key (defaulting to `today` when `date is None`), or `0`
when absent. -/
def get_daily_realized_pnl (today : String) (state : BotState) (date : Option String) : ℚ :=
  let date_key := match date with | none => today | some d => d
  (lookupA state.daily_realized_pnl date_key).getD 0

/-- `update_daily_realized_pnl` from `src/app/state.py`. -/
def update_daily_realized_pnl (today : String) (state : BotState) (pnl_delta : ℚ)
    (date : Option String) : BotState :=
  let date_key := match date with | none => today | some d => d
  let current_pnl := get_daily_realized_pnl today state date
  { state with daily_realized_pnl := setA state.daily_realized_pnl date_key (current_pnl + pnl_delta) }

/-- `build_client_order_id` from `src/app/state.py`. -/
def build_client_order_id (symbol : String) (side : String) (signal_timestamp : Timestamp)
    (strategy_name : String := "SMA") : String :=
  let ts_str := signal_timestamp.strftime "%Y%m%d%H%M%S"
  strategy_name ++ "_" ++ symbol ++ "_" ++ side ++ "_" ++ ts_str

/-! ## `src/app/models.py` -/

inductive OrderSide where
  | buy
  | sell
  deriving DecidableEq

/-- The string value of the `OrderSide` enum. -/
def OrderSide.value : OrderSide → String
  | .buy => "buy"
  | .sell => "sell"

inductive OrderType where
  | market
  | limit
  deriving DecidableEq

inductive OrderStatus where
  | pending
  | filled
  | rejected
  | canceled
  deriving DecidableEq

/-- `Quote` from `src/app/models.py` (the `timestamp` field is never
inspected by the modelled code and is omitted). -/
structure Quote where
  symbol : String
  bid : ℚ
  ask : ℚ
  last : ℚ
  deriving DecidableEq

def Quote.mid (q : Quote) : ℚ := (q.bid + q.ask) / 2

def Quote.spread (q : Quote) : ℚ := q.ask - q.bid

def Quote.spread_bps (q : Quote) : ℚ :=
  if q.mid = 0 then 0 else q.spread / q.mid * 10000

def Quote.expected_entry_price (q : Quote) (side : OrderSide) : ℚ :=
  if side = .buy then q.ask else q.bid

structure Signal where
  symbol : String
  side : OrderSide
  timestamp : Timestamp
  reason : String
  price : Option ℚ := none
  deriving DecidableEq

/-- `Order` from `src/app/models.py`, restricted to the fields the pipeline
reads. `filled_price` is `Optional` in the source but read only on the filled
path, where the broker supplies it; it is narrowed to `ℚ` here. The datetime
fields (`submitted_at`, `filled_at`) flow only into audit rows, which the
embedding tracks as counters. -/
structure Order where
  id : String
  symbol : String
  side : OrderSide
  type : OrderType
  quantity : ℤ
  price : Option ℚ := none
  status : OrderStatus := .pending
  filled_price : ℚ
  deriving DecidableEq

structure Position where
  symbol : String
  quantity : ℤ
  avg_price : ℚ
  current_price : ℚ
  unrealized_pnl : ℚ := 0
  deriving DecidableEq

/-- `Position.update_price` from `src/app/models.py`. -/
def Position.update_price (p : Position) (price : ℚ) : Position :=
  { p with current_price := price, unrealized_pnl := (price - p.avg_price) * (p.quantity : ℚ) }

/-! ## `src/app/config.py` (the fields the modelled code reads) -/

structure Config where
  max_positions : ℕ
  max_order_quantity : ℤ
  max_daily_loss : ℚ
  max_order_notional : ℚ
  max_positions_notional : ℚ
  allowed_symbols : List String
  use_limit_orders : Bool
  max_spread_bps : ℚ
  min_edge_bps : ℚ
  dry_run : Bool
  deriving DecidableEq

/-! ## `src/risk/manager.py` -/

structure RiskCheckResult where
  passed : Bool
  reason : String
  deriving DecidableEq

/-- `RiskManager` working state. `positions` is the `dict[str, Position]`.
The numeric interpolations in the Python reason strings are elided; each
reason keeps its distinguishing prefix. -/
structure RiskManager where
  config : Config
  daily_pnl : ℚ
  session_pnl : ℚ
  positions : List (String × Position)
  deriving DecidableEq

/-- Modelled from the spec: the session kill-switch revision of
`RiskManager.__init__` is exercised by the repository's tests
(`tests/test_session_loss.py` reads and writes `session_pnl`, and configures
`max_session_loss`) but that revision of `src/risk/manager.py` is not in the
tree; per the spec, session realized PnL "always starts at zero, never
persisted". The remaining fields follow `RiskManager.__init__` in
`src/risk/manager.py`: `daily_pnl` is the `daily_realized_pnl` argument
(default `0`), `positions` starts empty. -/
def RiskManager.init (config : Config) (daily_realized_pnl : ℚ := 0) : RiskManager :=
  { config := config, daily_pnl := daily_realized_pnl, session_pnl := 0, positions := [] }

/-- `RiskManager.check_signal`. -/
def RiskManager.check_signal (rm : RiskManager) (signal : Signal) : RiskCheckResult :=
  if signal.symbol ∉ rm.config.allowed_symbols then
    ⟨false, "Symbol not in allowlist"⟩
  else if signal.side = .buy ∧ rm.positions.length ≥ rm.config.max_positions then
    ⟨false, "Max positions reached"⟩
  else if rm.daily_pnl ≤ -rm.config.max_daily_loss then
    ⟨false, "Daily loss limit exceeded"⟩
  else
    ⟨true, "All checks passed"⟩

/-- `RiskManager.check_order_quantity`. -/
def RiskManager.check_order_quantity (rm : RiskManager) (quantity : ℤ) : RiskCheckResult :=
  if quantity > rm.config.max_order_quantity then
    ⟨false, "Order quantity exceeds max"⟩
  else if quantity ≤ 0 then
    ⟨false, "Order quantity must be positive"⟩
  else
    ⟨true, "Quantity check passed"⟩

/-- `RiskManager.check_order_notional`. -/
def RiskManager.check_order_notional (rm : RiskManager) (quantity : ℤ) (price : ℚ) :
    RiskCheckResult :=
  let notional := |(quantity : ℚ) * price|
  if notional > rm.config.max_order_notional then
    ⟨false, "Order notional exceeds limit"⟩
  else
    ⟨true, "Notional check passed"⟩

/-- `RiskManager.check_positions_exposure`. -/
def RiskManager.check_positions_exposure (rm : RiskManager) (new_order_quantity : ℤ)
    (new_order_price : ℚ) : RiskCheckResult :=
  let current_exposure :=
    (rm.positions.map (fun p => ((p.2.quantity.natAbs : ℚ)) * p.2.avg_price)).sum
  let new_order_notional := |(new_order_quantity : ℚ) * new_order_price|
  let total_exposure := current_exposure + new_order_notional
  if total_exposure > rm.config.max_positions_notional then
    ⟨false, "Total exposure exceeds limit"⟩
  else
    ⟨true, "Exposure check passed"⟩

/-- `RiskManager.update_position`: merge a fill into the position map,
realizing PnL on reductions and closes; quantity is signed (positive for a
buy fill, negative for a sell fill). -/
def RiskManager.update_position (rm : RiskManager) (symbol : String) (quantity : ℤ)
    (price : ℚ) : RiskManager :=
  match lookupA rm.positions symbol with
  | some pos =>
    let old_qty := pos.quantity
    let new_qty := old_qty + quantity
    if new_qty = 0 then
      let realized_pnl := (price - pos.avg_price) * ((quantity.natAbs : ℚ))
      { rm with daily_pnl := rm.daily_pnl + realized_pnl,
                positions := eraseA rm.positions symbol }
    else if new_qty > 0 then
      if old_qty > 0 ∧ quantity > 0 then
        let total_cost := pos.avg_price * (old_qty : ℚ) + price * (quantity : ℚ)
        let pos1 := { pos with avg_price := total_cost / (new_qty : ℚ), quantity := new_qty }
        { rm with positions := setA rm.positions symbol (pos1.update_price price) }
      else if old_qty > 0 ∧ quantity < 0 then
        let realized_pnl := (price - pos.avg_price) * ((quantity.natAbs : ℚ))
        let pos1 := { pos with quantity := new_qty }
        { rm with daily_pnl := rm.daily_pnl + realized_pnl,
                  positions := setA rm.positions symbol (pos1.update_price price) }
      else
        { rm with positions := setA rm.positions symbol (pos.update_price price) }
    else
      rm
  | none =>
    if quantity > 0 then
      let pos0 : Position :=
        { symbol := symbol, quantity := quantity, avg_price := price, current_price := price }
      { rm with positions := setA rm.positions symbol pos0 }
    else
      rm

/-! ## `src/app/order_pipeline.py` -/

/-- The venue adapter (`src/broker/base.py` contract), embedded as the pure
responses the pipeline can observe. `submit_order` takes
(symbol, side, quantity, client_order_id, order_type, limit_price); an
adapter exception is the `Except.error` case carrying the message. -/
structure Broker where
  order_exists : String → Bool
  get_quote : String → Quote
  submit_order : String → OrderSide → ℤ → String → OrderType → Option ℚ → Except String Order

structure OrderSubmissionResult where
  success : Bool
  reason : String
  order : Option Order := none
  client_order_id : Option String := none
  deriving DecidableEq

/-- The pipeline's observable behaviour: its return value, the state and risk
manager it leaves behind, and counters for every side effect it performs
(venue calls by kind, CSV audit rows by kind, `save_state` calls). The mock
adapter in the repository records submissions, so `broker_submit_calls` is
what its tests read as "venue calls recorded". -/
structure PipelineOutcome where
  result : OrderSubmissionResult
  state : BotState
  risk : RiskManager
  broker_submit_calls : ℕ
  order_exists_calls : ℕ
  quote_calls : ℕ
  order_csv_writes : ℕ
  fill_csv_writes : ℕ
  trade_csv_writes : ℕ
  save_state_calls : ℕ
  deriving DecidableEq

/-- A rejection outcome that performed no side effects beyond the listed
venue queries. -/
def rejectOutcome (reason : String) (client_order_id : String) (state : BotState)
    (rm : RiskManager) (order_exists_calls quote_calls : ℕ) : PipelineOutcome :=
  { result := { success := false, reason := reason, client_order_id := some client_order_id },
    state := state, risk := rm,
    broker_submit_calls := 0, order_exists_calls := order_exists_calls,
    quote_calls := quote_calls, order_csv_writes := 0, fill_csv_writes := 0,
    trade_csv_writes := 0, save_state_calls := 0 }

/-- Step 5d of `submit_signal_order`: the order type — limit when configured,
market otherwise. -/
def orderTypeFor (config : Config) : OrderType :=
  if config.use_limit_orders then OrderType.limit else OrderType.market

/-- Step 5d of `submit_signal_order`: the limit price, set slightly inside
the spread (BUY: `min(ask, mid + spread/4)`, SELL: `max(bid, mid − spread/4)`);
`none` when market orders are configured. -/
def limitPriceFor (config : Config) (signal : Signal) (quote : Quote) : Option ℚ :=
  let quarter_spread := quote.spread / 4
  if config.use_limit_orders then
    some (if signal.side = .buy then min quote.ask (quote.mid + quarter_spread)
          else max quote.bid (quote.mid - quarter_spread))
  else none

/-- Step 5e of `submit_signal_order`: the edge of the limit price over the
expected fill price (ask for BUY, bid for SELL), in basis points; `0` when
there is no limit price or the expected price is zero. -/
def edgeBpsFor (config : Config) (signal : Signal) (quote : Quote) : ℚ :=
  let expected_price := quote.expected_entry_price signal.side
  match limitPriceFor config signal quote with
  | some lp =>
    if expected_price ≠ 0 then (lp - expected_price) / expected_price * 10000
    else 0
  | none => 0

/-- Step 5e of `submit_signal_order`: the edge check trips only for limit
orders with a configured minimum edge, when the edge is not favourable enough
(for BUY the edge must be below `−min_edge_bps`, for SELL above
`min_edge_bps`). -/
def edgeRejected (config : Config) (signal : Signal) (quote : Quote) : Prop :=
  config.use_limit_orders ∧ config.min_edge_bps > 0 ∧
    (if signal.side = .buy then edgeBpsFor config signal quote > -config.min_edge_bps
     else edgeBpsFor config signal quote < config.min_edge_bps)

instance (config : Config) (signal : Signal) (quote : Quote) :
    Decidable (edgeRejected config signal quote) := by
  unfold edgeRejected
  infer_instance

/-- Steps 5c–9 of `submit_signal_order` from `src/app/order_pipeline.py`: the
cost controls (quote fetch, spread and edge checks), the dry-run cut-off, the
venue submission and the post-submission bookkeeping. Factored out of
`submit_signal_order` (which performs steps 1–5b and then tail-calls this)
so each stage of the pipeline can be reasoned about separately. -/
def submitCostAndExecute (signal : Signal) (quantity : ℤ) (config : Config) (broker : Broker)
    (risk_manager : RiskManager) (state : BotState) (client_order_id : String) :
    PipelineOutcome :=
  -- Step 5c: fetch a quote and check the spread
  let quote := broker.get_quote signal.symbol
  if quote.spread_bps > config.max_spread_bps then
    rejectOutcome "Spread too wide" client_order_id state risk_manager 1 1
  else
    -- Steps 5d-5e: order type, limit price and minimum-edge requirement
    if edgeRejected config signal quote then
      rejectOutcome "Insufficient edge" client_order_id state risk_manager 1 1
    else if config.dry_run then
      -- DRY-RUN MODE: stop before the broker call, leaving state,
      -- risk manager, CSV files and the state file untouched
      { result := { success := true,
                    reason := "Dry-run: order would have been submitted",
                    client_order_id := some client_order_id },
        state := state, risk := risk_manager,
        broker_submit_calls := 0, order_exists_calls := 1, quote_calls := 1,
        order_csv_writes := 0, fill_csv_writes := 0, trade_csv_writes := 0,
        save_state_calls := 0 }
    else
      -- Step 6: submit to the broker
      match broker.submit_order signal.symbol signal.side quantity client_order_id
          (orderTypeFor config) (limitPriceFor config signal quote) with
      | .error e =>
        rejectOutcome ("Broker error: " ++ e) client_order_id state risk_manager 1 1
      | .ok order =>
        -- Step 7: order audit row; Step 8: add key to state and save
        let ids' := insert client_order_id state.submitted_client_order_ids
        let state' := { state with submitted_client_order_ids := ids' }
        -- Step 9: on a filled order, fill audit row, position
        -- update, trade audit row
        if order.status = .filled then
          let qty_signed := if signal.side = .buy then quantity else -quantity
          let risk' :=
            risk_manager.update_position signal.symbol qty_signed order.filled_price
          { result := { success := true, reason := "Order submitted successfully",
                        order := some order,
                        client_order_id := some client_order_id },
            state := state', risk := risk',
            broker_submit_calls := 1, order_exists_calls := 1, quote_calls := 1,
            order_csv_writes := 1, fill_csv_writes := 1, trade_csv_writes := 1,
            save_state_calls := 1 }
        else
          { result := { success := true, reason := "Order submitted successfully",
                        order := some order,
                        client_order_id := some client_order_id },
            state := state', risk := risk_manager,
            broker_submit_calls := 1, order_exists_calls := 1, quote_calls := 1,
            order_csv_writes := 1, fill_csv_writes := 0, trade_csv_writes := 0,
            save_state_calls := 1 }

/-- `submit_signal_order` from `src/app/order_pipeline.py`: the only path to
the venue adapter. Steps 1–5b here; steps 5c–9 in `submitCostAndExecute`,
which this tail-calls once every risk check has passed. The CSV writer
callbacks are tracked as write counters; the audit-row payloads (slippage
figures and the like) flow only into those rows and are not otherwise
observable. -/
def submit_signal_order (signal : Signal) (quantity : ℤ) (config : Config) (broker : Broker)
    (risk_manager : RiskManager) (state : BotState) (strategy_name : String := "SMA") :
    PipelineOutcome :=
  -- Step 1: deterministic client_order_id
  let client_order_id :=
    build_client_order_id signal.symbol signal.side.value signal.timestamp strategy_name
  -- Step 2: idempotency check against local state
  if client_order_id ∈ state.submitted_client_order_ids then
    rejectOutcome "Duplicate order (already in state)" client_order_id state risk_manager 0 0
  -- Step 3: idempotency check against the broker; on hit, self-heal the
  -- local record and persist before returning
  else if broker.order_exists client_order_id then
    let ids' := insert client_order_id state.submitted_client_order_ids
    let state' := { state with submitted_client_order_ids := ids' }
    { result := { success := false, reason := "Duplicate order (already in broker)",
                  client_order_id := some client_order_id },
      state := state', risk := risk_manager,
      broker_submit_calls := 0, order_exists_calls := 1, quote_calls := 0,
      order_csv_writes := 0, fill_csv_writes := 0, trade_csv_writes := 0,
      save_state_calls := 1 }
  else
    -- Step 4: risk check - signal
    let risk_check := risk_manager.check_signal signal
    if ¬ risk_check.passed then
      rejectOutcome ("Risk check failed: " ++ risk_check.reason) client_order_id state
        risk_manager 1 0
    else
      -- Step 5: risk check - quantity
      let qty_check := risk_manager.check_order_quantity quantity
      if ¬ qty_check.passed then
        rejectOutcome ("Quantity check failed: " ++ qty_check.reason) client_order_id state
          risk_manager 1 0
      else
        -- Step 5a: risk check - order notional (requires the signal price)
        match signal.price with
        | none =>
          rejectOutcome "Signal price is required for notional check" client_order_id state
            risk_manager 1 0
        | some price =>
          let notional_check := risk_manager.check_order_notional quantity price
          if ¬ notional_check.passed then
            rejectOutcome ("Notional check failed: " ++ notional_check.reason) client_order_id
              state risk_manager 1 0
          else
            -- Step 5b: risk check - positions exposure
            let exposure_check := risk_manager.check_positions_exposure quantity price
            if ¬ exposure_check.passed then
              rejectOutcome ("Exposure check failed: " ++ exposure_check.reason) client_order_id
                state risk_manager 1 0
            else
              -- Steps 5c-9
              submitCostAndExecute signal quantity config broker risk_manager state
                client_order_id

/-! ## `src/app/reconciliation.py` -/

/-- `ReconciliationResult` from `src/app/reconciliation.py`. -/
structure ReconciliationResult where
  broker_open_orders_count : ℕ := 0
  local_orders_added : ℕ := 0
  broker_positions_count : ℕ := 0
  positions_synced : ℕ := 0
  positions_added : ℕ := 0
  positions_removed : ℕ := 0
  deriving DecidableEq

/-- The `Position` built by reconciliation from a broker report: the broker's
average price also seeds `current_price` ("use broker avg as initial price"). -/
def brokerPosition (symbol : String) (qty : ℤ) (avg_price : ℚ) : Position :=
  { symbol := symbol, quantity := qty, avg_price := avg_price, current_price := avg_price }

/-- The `for symbol, (qty, avg_price) in broker_positions.items()` loop of
`reconcile_with_broker`. `local_positions` is the snapshot taken before the
loop; the live map and the `positions_synced` / `positions_added` counters
are threaded through. -/
def syncPositionsLoop (local_positions : List (String × Position)) :
    List (String × ℤ × ℚ) → List (String × Position) → ℕ → ℕ →
      List (String × Position) × ℕ × ℕ
  | [], live, synced, added => (live, synced, added)
  | (symbol, qty, avg_price) :: rest, live, synced, added =>
    match lookupA local_positions symbol with
    | some local_pos =>
      if local_pos.quantity ≠ qty ∨ local_pos.avg_price ≠ avg_price then
        syncPositionsLoop local_positions rest
          (setA live symbol (brokerPosition symbol qty avg_price)) (synced + 1) added
      else
        syncPositionsLoop local_positions rest live synced added
    | none =>
      syncPositionsLoop local_positions rest
        (setA live symbol (brokerPosition symbol qty avg_price)) synced (added + 1)

/-- The removal loop of `reconcile_with_broker`: every locally known symbol
absent from the broker's position map is deleted from the live map and
counted. (`symbols_to_remove = local_symbols - broker_symbols`.) -/
def removePositionsLoop (broker_symbols : List String) :
    List (String × Position) → List (String × Position) → ℕ →
      List (String × Position) × ℕ
  | [], live, removed => (live, removed)
  | (symbol, _) :: rest, live, removed =>
    if symbol ∈ broker_symbols then
      removePositionsLoop broker_symbols rest live removed
    else
      removePositionsLoop broker_symbols rest (eraseA live symbol) (removed + 1)

/-- `reconcile_with_broker` from `src/app/reconciliation.py`. The two broker
fetches are passed as `Except` values: `Except.error` is an adapter
exception, which the code catches, leaving that sub-sync's counters at zero
and its targets untouched. Returns the result record, the updated state, and
the updated risk manager (when one was provided). -/
def reconcile_with_broker (broker_open_orders : Except Unit (Finset String))
    (broker_positions : Except Unit (List (String × ℤ × ℚ)))
    (state : BotState) (risk_manager : Option RiskManager) :
    ReconciliationResult × BotState × Option RiskManager :=
  -- Step 1: reconcile open orders (union; nothing is ever removed)
  let step1 : ReconciliationResult × BotState :=
    match broker_open_orders with
    | .error _ => ({}, state)
    | .ok brokerOpen =>
      let local_orders_before := state.submitted_client_order_ids
      let orders_to_add := brokerOpen \ local_orders_before
      ({ broker_open_orders_count := brokerOpen.card,
         local_orders_added := orders_to_add.card },
       { state with submitted_client_order_ids :=
          state.submitted_client_order_ids ∪ brokerOpen })
  let result := step1.1
  let state' := step1.2
  -- Step 2: reconcile positions (only when a risk manager is provided)
  match risk_manager with
  | none => (result, state', none)
  | some rm =>
    match broker_positions with
    | .error _ => (result, state', some rm)
    | .ok brokerPos =>
      let local_positions := rm.positions
      let loop := syncPositionsLoop local_positions brokerPos local_positions 0 0
      let broker_symbols := brokerPos.map Prod.fst
      let removal := removePositionsLoop broker_symbols local_positions loop.1 0
      ({ result with
          broker_positions_count := brokerPos.length,
          positions_synced := loop.2.1,
          positions_added := loop.2.2,
          positions_removed := removal.2 },
       state', some { rm with positions := removal.1 })

/-! ## Concrete instances used by counterexamples and witnesses -/

/-- A stored state whose `daily_realized_pnl` already holds an entry under
what will be the *new* day's key, while `daily_date` still points at the old
day. -/
def rolloverStaleState : BotState :=
  { run_id := "r", daily_realized_pnl := [("2024-01-02", 7)],
    daily_date := some "2024-01-01" }

/-- A stored state from the previous trading day: marker `2024-01-01`, PnL
recorded only under that day's key. -/
def rolloverWitnessState : BotState :=
  { run_id := "r", daily_realized_pnl := [("2024-01-01", 5)],
    daily_date := some "2024-01-01" }

/-- A permissive configuration used by concrete witnesses. -/
def configW : Config :=
  { max_positions := 5, max_order_quantity := 100, max_daily_loss := 500,
    max_order_notional := 10000, max_positions_notional := 50000,
    allowed_symbols := ["AAPL"], use_limit_orders := false,
    max_spread_bps := 20, min_edge_bps := 0, dry_run := false }

/-- A long position of 2 shares of AAPL at an average price of 100. -/
def posAAPL : Position :=
  { symbol := "AAPL", quantity := 2, avg_price := 100, current_price := 100 }

/-- A risk manager holding `posAAPL` and nothing else. -/
def rmWithPos : RiskManager :=
  { config := configW, daily_pnl := 0, session_pnl := 0,
    positions := [("AAPL", posAAPL)] }

/-- A tight quote for AAPL: 100.00 bid, 100.10 ask (spread about 10 bps). -/
def quoteW : Quote := { symbol := "AAPL", bid := 100, ask := 1001 / 10, last := 100 }

def tsW : Timestamp := ⟨2024, 1, 15, 10, 30, 0⟩

def signalW : Signal :=
  { symbol := "AAPL", side := .buy, timestamp := tsW, reason := "golden cross",
    price := some 100 }

/-- The order the witness broker confirms: filled at the ask. -/
def orderW : Order :=
  { id := "b1", symbol := "AAPL", side := .buy, type := .market, quantity := 10,
    status := .filled, filled_price := 1001 / 10 }

/-- A broker with no prior order under any key that accepts and fills the
submission. -/
def brokerW : Broker :=
  { order_exists := fun _ => false, get_quote := fun _ => quoteW,
    submit_order := fun _ _ _ _ _ _ => .ok orderW }

/-- A broker that already holds an order under every key. -/
def brokerDupW : Broker := { brokerW with order_exists := fun _ => true }

def stateW : BotState := { run_id := "run", daily_date := some "2024-01-15" }

def configDryW : Config := { configW with dry_run := true }

/-- Local state holding keys A and B, for the reconciliation example. -/
def stateAB : BotState := { run_id := "r", submitted_client_order_ids := {"A", "B"} }

/-- 10 shares of AAPL at 100. -/
def posAAPL10 : Position :=
  { symbol := "AAPL", quantity := 10, avg_price := 100, current_price := 100 }

/-- 5 shares of GOOGL at 2000. -/
def posGOOGL : Position :=
  { symbol := "GOOGL", quantity := 5, avg_price := 2000, current_price := 2000 }

/-- A risk manager holding AAPL 10@100 and GOOGL 5@2000, the spec's
reconciliation example. -/
def rmRecon : RiskManager :=
  { config := configW, daily_pnl := 0, session_pnl := 0,
    positions := [("AAPL", posAAPL10), ("GOOGL", posGOOGL)] }

/-- The broker's position report in the spec's reconciliation example:
AAPL 10@100 and MSFT 3@50. -/
def brokerPosList : List (String × ℤ × ℚ) := [("AAPL", 10, 100), ("MSFT", 3, 50)]

/-! ## Theorems about `src/app/state.py` -/

theorem string_append_assoc (a b c : String) : a ++ b ++ c = a ++ (b ++ c) := by
  apply String.ext
  simp [String.data_append]

theorem strftime_key_format (ts : Timestamp) :
    ts.strftime "%Y%m%d%H%M%S" =
      pad 4 ts.year ++ (pad 2 ts.month ++ (pad 2 ts.day ++ (pad 2 ts.hour ++
        (pad 2 ts.minute ++ pad 2 ts.second)))) := by
  have hdata : ("%Y%m%d%H%M%S").data =
      ['%', 'Y', '%', 'm', '%', 'd', '%', 'H', '%', 'M', '%', 'S'] := rfl
  rw [Timestamp.strftime, hdata]
  simp [strftimeAux, String.append_empty]

/-- **C2**: `build_client_order_id` is pure and deterministic: its value is a
function of exactly (symbol, side, signal timestamp, strategy name) — the
embedding takes no clock or process input — and for all inputs it equals
`"{strategy}_{symbol}_{side}_{timestamp to second precision}"`, the timestamp
rendered as zero-padded `YYYYMMDDHHMMSS`. Determinism across invocations and
processes is immediate: two calls with the same four inputs denote the same
string. -/
theorem build_client_order_id_deterministic_format (symbol side : String) (ts : Timestamp)
    (strategy : String) :
    build_client_order_id symbol side ts strategy =
      strategy ++ "_" ++ symbol ++ "_" ++ side ++ "_" ++
        (pad 4 ts.year ++ pad 2 ts.month ++ pad 2 ts.day ++ pad 2 ts.hour ++
          pad 2 ts.minute ++ pad 2 ts.second) := by
  rw [build_client_order_id, strftime_key_format]
  apply String.ext
  simp [String.data_append]

/-- Sanity: the key for a concrete signal. -/
theorem build_client_order_id_example :
    build_client_order_id "AAPL" "buy" ⟨2024, 1, 15, 10, 30, 0⟩ "SMA"
      = "SMA_AAPL_buy_20240115103000" := by decide

/-- **C5**: `load_state` on a missing state file, or on any file whose
contents fail to parse as a valid state, returns the fresh empty state with
`run_id = "initial"` and `daily_date` set to today's US/Eastern date. (In the
embedding the Python `except` clause is the `some none` case; totality of
`load_state` reflects that no exception escapes.) -/
theorem load_state_fresh_on_missing_or_corrupt (stored : Option (Option BotState))
    (today : String) (h : stored = none ∨ stored = some none) :
    load_state stored today =
      { run_id := "initial", last_processed_timestamp := [],
        submitted_client_order_ids := ∅, daily_realized_pnl := [],
        daily_date := some today } := by
  rcases h with h | h <;> subst h <;> rfl

theorem load_state_fresh_on_missing_or_corrupt_witness :
    (((none : Option (Option BotState)) = none ∨ (none : Option (Option BotState)) = some none) ∧
      load_state none "2024-01-02" =
        { run_id := "initial", last_processed_timestamp := [],
          submitted_client_order_ids := ∅, daily_realized_pnl := [],
          daily_date := some "2024-01-02" }) ∧
    ((some (none : Option BotState) = none ∨ some (none : Option BotState) = some none) ∧
      load_state (some none) "2024-01-02" =
        { run_id := "initial", last_processed_timestamp := [],
          submitted_client_order_ids := ∅, daily_realized_pnl := [],
          daily_date := some "2024-01-02" }) :=
  ⟨⟨Or.inl rfl, load_state_fresh_on_missing_or_corrupt none "2024-01-02" (Or.inl rfl)⟩,
   ⟨Or.inr rfl, load_state_fresh_on_missing_or_corrupt (some none) "2024-01-02" (Or.inr rfl)⟩⟩

/-- **C6 (counterexample)**: the claim as stated fails. For the stored state
`rolloverStaleState` (marker `2024-01-01`, but a PnL entry already present
under key `2024-01-02`) loaded on `2024-01-02`, the rollover premise holds
and the map is preserved, yet `get_daily_realized_pnl` with no date argument
returns `7`, not zero. -/
theorem load_state_rollover_counterexample :
    rolloverStaleState.daily_date ≠ some "2024-01-02" ∧
    (load_state (some (some rolloverStaleState)) "2024-01-02").daily_date = some "2024-01-02" ∧
    (load_state (some (some rolloverStaleState)) "2024-01-02").daily_realized_pnl
      = rolloverStaleState.daily_realized_pnl ∧
    get_daily_realized_pnl "2024-01-02"
      (load_state (some (some rolloverStaleState)) "2024-01-02") none ≠ 0 := by
  refine ⟨by decide, by decide, by decide, by decide⟩

/-- **C6 (amended)**: for every stored state whose `daily_date` marker differs
from today's US/Eastern date *and whose PnL map holds no entry under today's
key*, `load_state` returns a state whose `daily_date` equals today, whose
`daily_realized_pnl` map is unchanged (the prior day's entry is preserved
under its original key), and for which `get_daily_realized_pnl` with no date
argument returns zero. -/
theorem load_state_rollover (st : BotState) (today : String)
    (hdate : st.daily_date ≠ some today)
    (hfresh : lookupA st.daily_realized_pnl today = none) :
    (load_state (some (some st)) today).daily_date = some today ∧
    (load_state (some (some st)) today).daily_realized_pnl = st.daily_realized_pnl ∧
    get_daily_realized_pnl today (load_state (some (some st)) today) none = 0 := by
  refine ⟨?_, ?_, ?_⟩ <;> simp [load_state, hdate, get_daily_realized_pnl, hfresh]

theorem load_state_rollover_witness :
    (rolloverWitnessState.daily_date ≠ some "2024-01-02" ∧
      lookupA rolloverWitnessState.daily_realized_pnl "2024-01-02" = none) ∧
    ((load_state (some (some rolloverWitnessState)) "2024-01-02").daily_date
        = some "2024-01-02" ∧
      (load_state (some (some rolloverWitnessState)) "2024-01-02").daily_realized_pnl
        = rolloverWitnessState.daily_realized_pnl ∧
      get_daily_realized_pnl "2024-01-02"
        (load_state (some (some rolloverWitnessState)) "2024-01-02") none = 0) :=
  ⟨⟨by decide, by decide⟩,
   load_state_rollover rolloverWitnessState "2024-01-02" (by decide) (by decide)⟩

/-! ## Theorems about `src/risk/manager.py` -/

/-- **C9**: a freshly constructed risk guard engine starts with session
realized PnL exactly zero, for every configuration and every initial daily
PnL handed in from persisted state (including non-zero); the daily figure is
carried in unchanged and the position map starts empty. Session PnL is not
part of the persisted `BotState`, so it cannot survive a restart. -/
theorem risk_manager_fresh_session_pnl_zero (config : Config) (daily_realized_pnl : ℚ) :
    (RiskManager.init config daily_realized_pnl).session_pnl = 0 ∧
    (RiskManager.init config daily_realized_pnl).daily_pnl = daily_realized_pnl ∧
    (RiskManager.init config daily_realized_pnl).positions = [] :=
  ⟨rfl, rfl, rfl⟩

/-- **C10**: `update_position` never creates or leaves a negative-quantity
position: when no position exists for the symbol and the signed fill quantity
is non-positive, or a position exists and the resulting quantity would be
negative, the call is a silent no-op — the whole risk manager (positions map
and `daily_pnl` included) is returned unchanged. -/
theorem update_position_no_negative_position (rm : RiskManager) (symbol : String)
    (quantity : ℤ) (price : ℚ)
    (h : (lookupA rm.positions symbol = none ∧ quantity ≤ 0) ∨
         (∃ pos, lookupA rm.positions symbol = some pos ∧ pos.quantity + quantity < 0)) :
    rm.update_position symbol quantity price = rm := by
  rcases h with ⟨hnone, hq⟩ | ⟨pos, hsome, hneg⟩
  · simp only [RiskManager.update_position, hnone]
    simp [not_lt.mpr hq]
  · simp only [RiskManager.update_position, hsome]
    have h0 : ¬(pos.quantity + quantity = 0) := by omega
    have h1 : ¬(pos.quantity + quantity > 0) := by omega
    simp [h0, h1]

theorem update_position_no_negative_position_witness :
    ((∃ pos, lookupA rmWithPos.positions "AAPL" = some pos ∧ pos.quantity + (-5) < 0) ∧
      rmWithPos.update_position "AAPL" (-5) 90 = rmWithPos) ∧
    ((lookupA (RiskManager.init configW 0).positions "MSFT" = none ∧ (-3 : ℤ) ≤ 0) ∧
      (RiskManager.init configW 0).update_position "MSFT" (-3) 100 = RiskManager.init configW 0) :=
  ⟨⟨⟨posAAPL, by decide, by decide⟩,
    update_position_no_negative_position rmWithPos "AAPL" (-5) 90
      (Or.inr ⟨posAAPL, by decide, by decide⟩)⟩,
   ⟨⟨by decide, by decide⟩,
    update_position_no_negative_position (RiskManager.init configW 0) "MSFT" (-3) 100
      (Or.inl ⟨by decide, by decide⟩)⟩⟩

/-! ## Theorems about `src/app/order_pipeline.py` -/

/-- **C3**: when the key is not in local state but the broker reports an
existing order under it, the pipeline adds the key to
`state.submitted_client_order_ids`, persists the state exactly once before
returning, and returns a failure with the broker-duplicate reason, with zero
`submit_order` calls and the risk manager untouched. -/
theorem submit_signal_order_duplicate_at_broker (signal : Signal) (quantity : ℤ)
    (config : Config) (broker : Broker) (rm : RiskManager) (state : BotState)
    (strategy_name : String)
    (hmem : build_client_order_id signal.symbol signal.side.value signal.timestamp
      strategy_name ∉ state.submitted_client_order_ids)
    (hex : broker.order_exists (build_client_order_id signal.symbol signal.side.value
      signal.timestamp strategy_name) = true) :
    (submit_signal_order signal quantity config broker rm state strategy_name).result.success
      = false ∧
    (submit_signal_order signal quantity config broker rm state strategy_name).result.reason
      = "Duplicate order (already in broker)" ∧
    (submit_signal_order signal quantity config broker rm state
        strategy_name).state.submitted_client_order_ids
      = insert (build_client_order_id signal.symbol signal.side.value signal.timestamp
          strategy_name) state.submitted_client_order_ids ∧
    (submit_signal_order signal quantity config broker rm state strategy_name).save_state_calls
      = 1 ∧
    (submit_signal_order signal quantity config broker rm state strategy_name).broker_submit_calls
      = 0 ∧
    (submit_signal_order signal quantity config broker rm state strategy_name).risk = rm := by
  simp [submit_signal_order, hmem, hex]

theorem submit_signal_order_duplicate_at_broker_witness :
    (build_client_order_id signalW.symbol signalW.side.value signalW.timestamp "SMA"
        ∉ stateW.submitted_client_order_ids ∧
      brokerDupW.order_exists (build_client_order_id signalW.symbol signalW.side.value
        signalW.timestamp "SMA") = true) ∧
    ((submit_signal_order signalW 10 configW brokerDupW (RiskManager.init configW 0) stateW
        "SMA").result.success = false ∧
      (submit_signal_order signalW 10 configW brokerDupW (RiskManager.init configW 0) stateW
        "SMA").result.reason = "Duplicate order (already in broker)" ∧
      (submit_signal_order signalW 10 configW brokerDupW (RiskManager.init configW 0) stateW
        "SMA").state.submitted_client_order_ids
        = insert (build_client_order_id signalW.symbol signalW.side.value signalW.timestamp
            "SMA") stateW.submitted_client_order_ids ∧
      (submit_signal_order signalW 10 configW brokerDupW (RiskManager.init configW 0) stateW
        "SMA").save_state_calls = 1 ∧
      (submit_signal_order signalW 10 configW brokerDupW (RiskManager.init configW 0) stateW
        "SMA").broker_submit_calls = 0 ∧
      (submit_signal_order signalW 10 configW brokerDupW (RiskManager.init configW 0) stateW
        "SMA").risk = RiskManager.init configW 0) :=
  ⟨⟨by decide, rfl⟩,
   submit_signal_order_duplicate_at_broker signalW 10 configW brokerDupW
     (RiskManager.init configW 0) stateW "SMA" (by decide) rfl⟩

/-- A successful pipeline run passed every step 1–5b check, so it is exactly
a run of the execution stage on the computed key. -/
theorem submit_signal_order_success_eq (signal : Signal) (quantity : ℤ) (config : Config)
    (broker : Broker) (rm : RiskManager) (state : BotState) (strategy_name : String)
    (hsucc : (submit_signal_order signal quantity config broker rm state
      strategy_name).result.success = true) :
    submit_signal_order signal quantity config broker rm state strategy_name
      = submitCostAndExecute signal quantity config broker rm state
          (build_client_order_id signal.symbol signal.side.value signal.timestamp
            strategy_name) := by
  unfold submit_signal_order at hsucc ⊢
  by_cases h1 : build_client_order_id signal.symbol signal.side.value signal.timestamp
      strategy_name ∈ state.submitted_client_order_ids
  case pos =>
    rw [if_pos h1] at hsucc
    simp [rejectOutcome] at hsucc
  rw [if_neg h1] at hsucc ⊢
  by_cases h2 : broker.order_exists (build_client_order_id signal.symbol signal.side.value
      signal.timestamp strategy_name) = true
  case pos =>
    rw [if_pos h2] at hsucc
    simp at hsucc
  rw [if_neg h2] at hsucc ⊢
  by_cases h3 : (rm.check_signal signal).passed = true
  case neg =>
    rw [if_pos h3] at hsucc
    simp [rejectOutcome] at hsucc
  rw [if_neg (not_not_intro h3)] at hsucc ⊢
  by_cases h4 : (rm.check_order_quantity quantity).passed = true
  case neg =>
    rw [if_pos h4] at hsucc
    simp [rejectOutcome] at hsucc
  rw [if_neg (not_not_intro h4)] at hsucc ⊢
  cases hp : signal.price with
  | none =>
    rw [hp] at hsucc
    simp [rejectOutcome] at hsucc
  | some price =>
    simp only [hp] at hsucc ⊢
    by_cases h5 : (rm.check_order_notional quantity price).passed = true
    case neg =>
      rw [if_pos h5] at hsucc
      simp [rejectOutcome] at hsucc
    rw [if_neg (not_not_intro h5)] at hsucc ⊢
    by_cases h6 : (rm.check_positions_exposure quantity price).passed = true
    case neg =>
      rw [if_pos h6] at hsucc
      simp [rejectOutcome] at hsucc
    rw [if_neg (not_not_intro h6)]

set_option maxHeartbeats 1000000 in
/-- In dry-run mode the only successful outcome of the execution stage is the
dry-run cut-off, which performs no submission, writes nothing, persists
nothing, and leaves state and risk manager untouched. -/
theorem submitCostAndExecute_dry_run (signal : Signal) (quantity : ℤ) (config : Config)
    (broker : Broker) (rm : RiskManager) (state : BotState) (client_order_id : String)
    (hdry : config.dry_run = true)
    (hsucc : (submitCostAndExecute signal quantity config broker rm state
      client_order_id).result.success = true) :
    submitCostAndExecute signal quantity config broker rm state client_order_id
      = { result := { success := true, reason := "Dry-run: order would have been submitted",
                      client_order_id := some client_order_id },
          state := state, risk := rm,
          broker_submit_calls := 0, order_exists_calls := 1, quote_calls := 1,
          order_csv_writes := 0, fill_csv_writes := 0, trade_csv_writes := 0,
          save_state_calls := 0 } := by
  unfold submitCostAndExecute at hsucc ⊢
  by_cases hs : (broker.get_quote signal.symbol).spread_bps > config.max_spread_bps
  case pos =>
    rw [if_pos hs] at hsucc
    simp [rejectOutcome] at hsucc
  rw [if_neg hs] at hsucc ⊢
  by_cases he : edgeRejected config signal (broker.get_quote signal.symbol)
  case pos =>
    rw [if_pos he] at hsucc
    simp [rejectOutcome] at hsucc
  rw [if_neg he] at hsucc ⊢
  rw [if_pos hdry]

set_option maxHeartbeats 1000000 in
/-- Outside dry-run mode, a successful execution stage submitted exactly
once, recorded the key, and persisted exactly once. -/
theorem submitCostAndExecute_live_success (signal : Signal) (quantity : ℤ) (config : Config)
    (broker : Broker) (rm : RiskManager) (state : BotState) (client_order_id : String)
    (hdry : config.dry_run = false)
    (hsucc : (submitCostAndExecute signal quantity config broker rm state
      client_order_id).result.success = true) :
    (submitCostAndExecute signal quantity config broker rm state
        client_order_id).broker_submit_calls = 1 ∧
    (submitCostAndExecute signal quantity config broker rm state
        client_order_id).state.submitted_client_order_ids
      = insert client_order_id state.submitted_client_order_ids ∧
    (submitCostAndExecute signal quantity config broker rm state
        client_order_id).save_state_calls = 1 := by
  unfold submitCostAndExecute at hsucc ⊢
  by_cases hs : (broker.get_quote signal.symbol).spread_bps > config.max_spread_bps
  case pos =>
    rw [if_pos hs] at hsucc
    simp [rejectOutcome] at hsucc
  rw [if_neg hs] at hsucc ⊢
  by_cases he : edgeRejected config signal (broker.get_quote signal.symbol)
  case pos =>
    rw [if_pos he] at hsucc
    simp [rejectOutcome] at hsucc
  rw [if_neg he] at hsucc ⊢
  have hnd : ¬(config.dry_run = true) := by
    rw [hdry]
    exact Bool.false_ne_true
  rw [if_neg hnd] at hsucc ⊢
  cases hsub : broker.submit_order signal.symbol signal.side quantity client_order_id
      (orderTypeFor config) (limitPriceFor config signal (broker.get_quote signal.symbol)) with
  | error e =>
    rw [hsub] at hsucc
    simp [rejectOutcome] at hsucc
  | ok order =>
    simp only [hsub] at hsucc ⊢
    by_cases hf : order.status = OrderStatus.filled
    case pos =>
      rw [if_pos hf]
      exact ⟨rfl, rfl, rfl⟩
    case neg =>
      rw [if_neg hf]
      exact ⟨rfl, rfl, rfl⟩

/-- **C4**: in dry-run mode, whenever the pipeline reports success (which it
does exactly when every check passed), the venue adapter records zero
submissions, no CSV audit rows of any kind are written, the state is never
persisted, and both the bot state and the risk manager are returned
unchanged. -/
theorem submit_signal_order_dry_run_frame (signal : Signal) (quantity : ℤ) (config : Config)
    (broker : Broker) (rm : RiskManager) (state : BotState) (strategy_name : String)
    (hdry : config.dry_run = true)
    (hsucc : (submit_signal_order signal quantity config broker rm state
      strategy_name).result.success = true) :
    (submit_signal_order signal quantity config broker rm state strategy_name).result.reason
      = "Dry-run: order would have been submitted" ∧
    (submit_signal_order signal quantity config broker rm state strategy_name).broker_submit_calls
      = 0 ∧
    (submit_signal_order signal quantity config broker rm state strategy_name).order_csv_writes
      = 0 ∧
    (submit_signal_order signal quantity config broker rm state strategy_name).fill_csv_writes
      = 0 ∧
    (submit_signal_order signal quantity config broker rm state strategy_name).trade_csv_writes
      = 0 ∧
    (submit_signal_order signal quantity config broker rm state strategy_name).save_state_calls
      = 0 ∧
    (submit_signal_order signal quantity config broker rm state strategy_name).state = state ∧
    (submit_signal_order signal quantity config broker rm state strategy_name).risk = rm := by
  have he := submit_signal_order_success_eq signal quantity config broker rm state
    strategy_name hsucc
  rw [he] at hsucc ⊢
  rw [submitCostAndExecute_dry_run signal quantity config broker rm state _ hdry hsucc]
  exact ⟨rfl, rfl, rfl, rfl, rfl, rfl, rfl, rfl⟩

theorem submit_signal_order_dry_run_frame_witness :
    (configDryW.dry_run = true ∧
      (submit_signal_order signalW 10 configDryW brokerW (RiskManager.init configDryW 0) stateW
        "SMA").result.success = true) ∧
    ((submit_signal_order signalW 10 configDryW brokerW (RiskManager.init configDryW 0) stateW
        "SMA").result.reason = "Dry-run: order would have been submitted" ∧
      (submit_signal_order signalW 10 configDryW brokerW (RiskManager.init configDryW 0) stateW
        "SMA").broker_submit_calls = 0 ∧
      (submit_signal_order signalW 10 configDryW brokerW (RiskManager.init configDryW 0) stateW
        "SMA").order_csv_writes = 0 ∧
      (submit_signal_order signalW 10 configDryW brokerW (RiskManager.init configDryW 0) stateW
        "SMA").fill_csv_writes = 0 ∧
      (submit_signal_order signalW 10 configDryW brokerW (RiskManager.init configDryW 0) stateW
        "SMA").trade_csv_writes = 0 ∧
      (submit_signal_order signalW 10 configDryW brokerW (RiskManager.init configDryW 0) stateW
        "SMA").save_state_calls = 0 ∧
      (submit_signal_order signalW 10 configDryW brokerW (RiskManager.init configDryW 0) stateW
        "SMA").state = stateW ∧
      (submit_signal_order signalW 10 configDryW brokerW (RiskManager.init configDryW 0) stateW
        "SMA").risk = RiskManager.init configDryW 0) :=
  ⟨⟨rfl, by
     norm_num [submit_signal_order, submitCostAndExecute, rejectOutcome, edgeRejected,
       edgeBpsFor, limitPriceFor, orderTypeFor, Quote.spread_bps, Quote.mid, Quote.spread,
       Quote.expected_entry_price, brokerW, quoteW, configDryW, configW, signalW, stateW,
       RiskManager.init, RiskManager.check_signal, RiskManager.check_order_quantity,
       RiskManager.check_order_notional, RiskManager.check_positions_exposure]⟩,
   submit_signal_order_dry_run_frame signalW 10 configDryW brokerW
     (RiskManager.init configDryW 0) stateW "SMA" rfl (by
       norm_num [submit_signal_order, submitCostAndExecute, rejectOutcome, edgeRejected,
         edgeBpsFor, limitPriceFor, orderTypeFor, Quote.spread_bps, Quote.mid, Quote.spread,
         Quote.expected_entry_price, brokerW, quoteW, configDryW, configW, signalW, stateW,
         RiskManager.init, RiskManager.check_signal, RiskManager.check_order_quantity,
         RiskManager.check_order_notional, RiskManager.check_positions_exposure])⟩

/-- Inversion on a live (non-dry-run) successful submission: the pipeline
reached the broker exactly once, recorded the key, and persisted. -/
theorem submit_success_live_effects (signal : Signal) (quantity : ℤ) (config : Config)
    (broker : Broker) (rm : RiskManager) (state : BotState) (strategy_name : String)
    (hdry : config.dry_run = false)
    (hsucc : (submit_signal_order signal quantity config broker rm state
      strategy_name).result.success = true) :
    (submit_signal_order signal quantity config broker rm state strategy_name).broker_submit_calls
      = 1 ∧
    (submit_signal_order signal quantity config broker rm state
        strategy_name).state.submitted_client_order_ids
      = insert (build_client_order_id signal.symbol signal.side.value signal.timestamp
          strategy_name) state.submitted_client_order_ids ∧
    (submit_signal_order signal quantity config broker rm state strategy_name).save_state_calls
      = 1 := by
  have he := submit_signal_order_success_eq signal quantity config broker rm state
    strategy_name hsucc
  rw [he] at hsucc ⊢
  exact submitCostAndExecute_live_success signal quantity config broker rm state _ hdry hsucc

/-- A key already present in local state short-circuits the pipeline at step
2: rejection, no venue call of any kind, no writes, no persistence, state and
risk manager unchanged. -/
theorem submit_duplicate_in_state_effects (signal : Signal) (quantity : ℤ) (config : Config)
    (broker : Broker) (rm : RiskManager) (state : BotState) (strategy_name : String)
    (hmem : build_client_order_id signal.symbol signal.side.value signal.timestamp strategy_name
      ∈ state.submitted_client_order_ids) :
    (submit_signal_order signal quantity config broker rm state strategy_name).result.success
      = false ∧
    (submit_signal_order signal quantity config broker rm state strategy_name).result.reason
      = "Duplicate order (already in state)" ∧
    (submit_signal_order signal quantity config broker rm state strategy_name).broker_submit_calls
      = 0 ∧
    (submit_signal_order signal quantity config broker rm state strategy_name).order_exists_calls
      = 0 ∧
    (submit_signal_order signal quantity config broker rm state strategy_name).quote_calls = 0 ∧
    (submit_signal_order signal quantity config broker rm state strategy_name).save_state_calls
      = 0 ∧
    (submit_signal_order signal quantity config broker rm state strategy_name).state = state ∧
    (submit_signal_order signal quantity config broker rm state strategy_name).risk = rm := by
  simp [submit_signal_order, rejectOutcome, hmem]

/-- **C1**: (i) for every signal whose computed idempotency key is already in
`state.submitted_client_order_ids`, the pipeline returns failure with the
local-duplicate reason, performs no venue call of any kind, never persists,
and leaves state and risk manager unchanged; (ii) hence a live submission
that succeeds makes exactly one venue submission and records exactly the one
new key, and re-submitting the same symbol/side/signal-timestamp against the
resulting state is rejected with zero further venue calls and no state
change — one submission and one key in total. -/
theorem submit_signal_order_idempotency :
    (∀ (signal : Signal) (quantity : ℤ) (config : Config) (broker : Broker)
        (rm : RiskManager) (state : BotState) (strategy_name : String),
      build_client_order_id signal.symbol signal.side.value signal.timestamp strategy_name
          ∈ state.submitted_client_order_ids →
      (submit_signal_order signal quantity config broker rm state strategy_name).result.success
          = false ∧
      (submit_signal_order signal quantity config broker rm state strategy_name).result.reason
          = "Duplicate order (already in state)" ∧
      (submit_signal_order signal quantity config broker rm state
          strategy_name).broker_submit_calls = 0 ∧
      (submit_signal_order signal quantity config broker rm state
          strategy_name).order_exists_calls = 0 ∧
      (submit_signal_order signal quantity config broker rm state strategy_name).quote_calls
          = 0 ∧
      (submit_signal_order signal quantity config broker rm state strategy_name).save_state_calls
          = 0 ∧
      (submit_signal_order signal quantity config broker rm state strategy_name).state = state ∧
      (submit_signal_order signal quantity config broker rm state strategy_name).risk = rm) ∧
    (∀ (signal : Signal) (quantity : ℤ) (config : Config) (broker : Broker)
        (rm : RiskManager) (state : BotState) (strategy_name : String),
      config.dry_run = false →
      (submit_signal_order signal quantity config broker rm state strategy_name).result.success
          = true →
      (submit_signal_order signal quantity config broker rm state
          strategy_name).broker_submit_calls = 1 ∧
      (submit_signal_order signal quantity config broker rm state
          strategy_name).state.submitted_client_order_ids
          = insert (build_client_order_id signal.symbol signal.side.value signal.timestamp
              strategy_name) state.submitted_client_order_ids ∧
      (submit_signal_order signal quantity config broker
          (submit_signal_order signal quantity config broker rm state strategy_name).risk
          (submit_signal_order signal quantity config broker rm state strategy_name).state
          strategy_name).result.success = false ∧
      (submit_signal_order signal quantity config broker
          (submit_signal_order signal quantity config broker rm state strategy_name).risk
          (submit_signal_order signal quantity config broker rm state strategy_name).state
          strategy_name).result.reason = "Duplicate order (already in state)" ∧
      (submit_signal_order signal quantity config broker
          (submit_signal_order signal quantity config broker rm state strategy_name).risk
          (submit_signal_order signal quantity config broker rm state strategy_name).state
          strategy_name).broker_submit_calls = 0 ∧
      (submit_signal_order signal quantity config broker
          (submit_signal_order signal quantity config broker rm state strategy_name).risk
          (submit_signal_order signal quantity config broker rm state strategy_name).state
          strategy_name).state
          = (submit_signal_order signal quantity config broker rm state strategy_name).state) := by
  constructor
  · intro signal quantity config broker rm state strategy_name hmem
    exact submit_duplicate_in_state_effects signal quantity config broker rm state
      strategy_name hmem
  · intro signal quantity config broker rm state strategy_name hdry hsucc
    obtain ⟨h1, h2, h3⟩ :=
      submit_success_live_effects signal quantity config broker rm state strategy_name hdry hsucc
    have hmem : build_client_order_id signal.symbol signal.side.value signal.timestamp
        strategy_name ∈ (submit_signal_order signal quantity config broker rm state
          strategy_name).state.submitted_client_order_ids := by
      rw [h2]
      exact Finset.mem_insert_self _ _
    obtain ⟨d1, d2, d3, d4, d5, d6, d7, d8⟩ :=
      submit_duplicate_in_state_effects signal quantity config broker
        (submit_signal_order signal quantity config broker rm state strategy_name).risk
        (submit_signal_order signal quantity config broker rm state strategy_name).state
        strategy_name hmem
    exact ⟨h1, h2, d1, d2, d3, d7⟩

theorem submit_signal_order_idempotency_witness :
    (configW.dry_run = false ∧
      (submit_signal_order signalW 10 configW brokerW (RiskManager.init configW 0) stateW
        "SMA").result.success = true) ∧
    ((submit_signal_order signalW 10 configW brokerW (RiskManager.init configW 0) stateW
        "SMA").broker_submit_calls = 1 ∧
      (submit_signal_order signalW 10 configW brokerW
          (submit_signal_order signalW 10 configW brokerW (RiskManager.init configW 0) stateW
            "SMA").risk
          (submit_signal_order signalW 10 configW brokerW (RiskManager.init configW 0) stateW
            "SMA").state
          "SMA").broker_submit_calls = 0) :=
  ⟨⟨rfl, by
     norm_num [submit_signal_order, submitCostAndExecute, rejectOutcome, edgeRejected,
       edgeBpsFor, limitPriceFor, orderTypeFor, Quote.spread_bps, Quote.mid, Quote.spread,
       Quote.expected_entry_price, brokerW, quoteW, orderW, configW, signalW, stateW,
       RiskManager.init, RiskManager.check_signal, RiskManager.check_order_quantity,
       RiskManager.check_order_notional, RiskManager.check_positions_exposure]⟩,
   ⟨(submit_signal_order_idempotency.2 signalW 10 configW brokerW (RiskManager.init configW 0)
       stateW "SMA" rfl (by
         norm_num [submit_signal_order, submitCostAndExecute, rejectOutcome, edgeRejected,
           edgeBpsFor, limitPriceFor, orderTypeFor, Quote.spread_bps, Quote.mid, Quote.spread,
           Quote.expected_entry_price, brokerW, quoteW, orderW, configW, signalW, stateW,
           RiskManager.init, RiskManager.check_signal, RiskManager.check_order_quantity,
           RiskManager.check_order_notional, RiskManager.check_positions_exposure])).1,
    (submit_signal_order_idempotency.2 signalW 10 configW brokerW (RiskManager.init configW 0)
       stateW "SMA" rfl (by
         norm_num [submit_signal_order, submitCostAndExecute, rejectOutcome, edgeRejected,
           edgeBpsFor, limitPriceFor, orderTypeFor, Quote.spread_bps, Quote.mid, Quote.spread,
           Quote.expected_entry_price, brokerW, quoteW, orderW, configW, signalW, stateW,
           RiskManager.init, RiskManager.check_signal, RiskManager.check_order_quantity,
           RiskManager.check_order_notional, RiskManager.check_positions_exposure])).2.2.2.2.1⟩⟩

/-! ## Theorems about `src/app/reconciliation.py` -/

/-- The positions loop never touches a key the broker does not report. -/
theorem syncPositionsLoop_lookup_not_mem (snap : List (String × Position)) (s : String) :
    ∀ (bps : List (String × ℤ × ℚ)) (live : List (String × Position)) (sy ad : ℕ),
      s ∉ bps.map Prod.fst →
      lookupA (syncPositionsLoop snap bps live sy ad).1 s = lookupA live s := by
  intro bps
  induction bps with
  | nil =>
    intro live sy ad hs
    rfl
  | cons e rest ih =>
    intro live sy ad hs
    obtain ⟨k, qty, avg⟩ := e
    have hks : k ≠ s := fun h => hs (by simp [h])
    have hs' : s ∉ rest.map Prod.fst := fun h => hs (by simp [h])
    simp only [syncPositionsLoop]
    cases hsnap : lookupA snap k with
    | some p =>
      dsimp only
      by_cases hd : p.quantity ≠ qty ∨ p.avg_price ≠ avg
      · rw [if_pos hd, ih _ _ _ hs', lookupA_setA_ne _ _ _ _ hks]
      · rw [if_neg hd, ih _ _ _ hs']
    | none =>
      dsimp only
      rw [ih _ _ _ hs', lookupA_setA_ne _ _ _ _ hks]

/-- A broker-reported symbol with no local counterpart ends up in the live
map as the broker's position. -/
theorem syncPositionsLoop_lookup_new (snap : List (String × Position)) (s : String)
    (qty : ℤ) (avg : ℚ) :
    ∀ (bps : List (String × ℤ × ℚ)) (live : List (String × Position)) (sy ad : ℕ),
      (bps.map Prod.fst).Nodup → (s, (qty, avg)) ∈ bps → lookupA snap s = none →
      lookupA (syncPositionsLoop snap bps live sy ad).1 s
        = some (brokerPosition s qty avg) := by
  intro bps
  induction bps with
  | nil =>
    intro live sy ad _ hmem _
    simp at hmem
  | cons e rest ih =>
    intro live sy ad hnd hmem hsnap
    obtain ⟨k, q0, a0⟩ := e
    simp only [List.map_cons, List.nodup_cons] at hnd
    obtain ⟨hk_not, hnd'⟩ := hnd
    rcases List.mem_cons.mp hmem with he | he
    · cases he
      have hs' : s ∉ rest.map Prod.fst := hk_not
      simp only [syncPositionsLoop, hsnap]
      rw [syncPositionsLoop_lookup_not_mem snap s rest _ _ _ hs', lookupA_setA_self]
    · have hks : k ≠ s := by
        intro h
        exact hk_not (h ▸ List.mem_map.mpr ⟨(s, (qty, avg)), he, rfl⟩)
      simp only [syncPositionsLoop]
      cases hsnapk : lookupA snap k with
      | some p =>
        dsimp only
        by_cases hd : p.quantity ≠ q0 ∨ p.avg_price ≠ a0
        · rw [if_pos hd, ih _ _ _ hnd' he hsnap]
        · rw [if_neg hd, ih _ _ _ hnd' he hsnap]
      | none =>
        dsimp only
        rw [ih _ _ _ hnd' he hsnap]

/-- A broker-reported symbol whose local position differs numerically is
overwritten with the broker's position. -/
theorem syncPositionsLoop_lookup_differs (snap : List (String × Position)) (s : String)
    (qty : ℤ) (avg : ℚ) (p : Position) :
    ∀ (bps : List (String × ℤ × ℚ)) (live : List (String × Position)) (sy ad : ℕ),
      (bps.map Prod.fst).Nodup → (s, (qty, avg)) ∈ bps → lookupA snap s = some p →
      (p.quantity ≠ qty ∨ p.avg_price ≠ avg) →
      lookupA (syncPositionsLoop snap bps live sy ad).1 s
        = some (brokerPosition s qty avg) := by
  intro bps
  induction bps with
  | nil =>
    intro live sy ad _ hmem _ _
    simp at hmem
  | cons e rest ih =>
    intro live sy ad hnd hmem hsnap hd
    obtain ⟨k, q0, a0⟩ := e
    simp only [List.map_cons, List.nodup_cons] at hnd
    obtain ⟨hk_not, hnd'⟩ := hnd
    rcases List.mem_cons.mp hmem with he | he
    · cases he
      simp only [syncPositionsLoop, hsnap]
      rw [if_pos hd, syncPositionsLoop_lookup_not_mem snap s rest _ _ _ hk_not,
        lookupA_setA_self]
    · have hks : k ≠ s := by
        intro h
        exact hk_not (h ▸ List.mem_map.mpr ⟨(s, (qty, avg)), he, rfl⟩)
      simp only [syncPositionsLoop]
      cases hsnapk : lookupA snap k with
      | some p0 =>
        dsimp only
        by_cases hd0 : p0.quantity ≠ q0 ∨ p0.avg_price ≠ a0
        · rw [if_pos hd0, ih _ _ _ hnd' he hsnap hd]
        · rw [if_neg hd0, ih _ _ _ hnd' he hsnap hd]
      | none =>
        dsimp only
        rw [ih _ _ _ hnd' he hsnap hd]

/-- A broker-reported symbol whose local position matches numerically is left
untouched in the live map. -/
theorem syncPositionsLoop_lookup_matches (snap : List (String × Position)) (s : String)
    (qty : ℤ) (avg : ℚ) (p : Position) :
    ∀ (bps : List (String × ℤ × ℚ)) (live : List (String × Position)) (sy ad : ℕ),
      (bps.map Prod.fst).Nodup → (s, (qty, avg)) ∈ bps → lookupA snap s = some p →
      p.quantity = qty → p.avg_price = avg →
      lookupA (syncPositionsLoop snap bps live sy ad).1 s = lookupA live s := by
  intro bps
  induction bps with
  | nil =>
    intro live sy ad _ hmem _ _ _
    simp at hmem
  | cons e rest ih =>
    intro live sy ad hnd hmem hsnap hq ha
    obtain ⟨k, q0, a0⟩ := e
    simp only [List.map_cons, List.nodup_cons] at hnd
    obtain ⟨hk_not, hnd'⟩ := hnd
    rcases List.mem_cons.mp hmem with he | he
    · cases he
      have hd : ¬(p.quantity ≠ qty ∨ p.avg_price ≠ avg) := by
        push_neg
        exact ⟨hq, ha⟩
      simp only [syncPositionsLoop, hsnap]
      rw [if_neg hd, syncPositionsLoop_lookup_not_mem snap s rest _ _ _ hk_not]
    · have hks : k ≠ s := by
        intro h
        exact hk_not (h ▸ List.mem_map.mpr ⟨(s, (qty, avg)), he, rfl⟩)
      simp only [syncPositionsLoop]
      cases hsnapk : lookupA snap k with
      | some p0 =>
        dsimp only
        by_cases hd0 : p0.quantity ≠ q0 ∨ p0.avg_price ≠ a0
        · rw [if_pos hd0, ih _ _ _ hnd' he hsnap hq ha, lookupA_setA_ne _ _ _ _ hks]
        · rw [if_neg hd0, ih _ _ _ hnd' he hsnap hq ha]
      | none =>
        dsimp only
        rw [ih _ _ _ hnd' he hsnap hq ha, lookupA_setA_ne _ _ _ _ hks]

/-- The loop's `positions_synced` and `positions_added` counters count the
broker entries that differ from the local snapshot, respectively the broker
entries with no local counterpart. -/
theorem syncPositionsLoop_counts (snap : List (String × Position)) :
    ∀ (bps : List (String × ℤ × ℚ)) (live : List (String × Position)) (sy ad : ℕ),
      (syncPositionsLoop snap bps live sy ad).2.1
          = sy + (bps.filter (fun e =>
              match lookupA snap e.1 with
              | some p => decide (p.quantity ≠ e.2.1 ∨ p.avg_price ≠ e.2.2)
              | none => false)).length ∧
      (syncPositionsLoop snap bps live sy ad).2.2
          = ad + (bps.filter (fun e => (lookupA snap e.1).isNone)).length := by
  intro bps
  induction bps with
  | nil =>
    intro live sy ad
    exact ⟨rfl, rfl⟩
  | cons e rest ih =>
    intro live sy ad
    obtain ⟨k, q0, a0⟩ := e
    simp only [syncPositionsLoop]
    cases hsnap : lookupA snap k with
    | some p =>
      by_cases hd : p.quantity ≠ q0 ∨ p.avg_price ≠ a0
      · dsimp only
        rw [if_pos hd]
        refine ⟨?_, ?_⟩
        · rw [(ih _ _ _).1, List.filter_cons]
          simp [hsnap, hd]
          omega
        · rw [(ih _ _ _).2, List.filter_cons]
          simp [hsnap]
      · dsimp only
        rw [if_neg hd]
        refine ⟨?_, ?_⟩
        · rw [(ih _ _ _).1, List.filter_cons]
          simp [hsnap, hd]
        · rw [(ih _ _ _).2, List.filter_cons]
          simp [hsnap]
    | none =>
      dsimp only
      refine ⟨?_, ?_⟩
      · rw [(ih _ _ _).1, List.filter_cons]
        simp [hsnap]
      · rw [(ih _ _ _).2, List.filter_cons]
        simp [hsnap]
        omega

/-- The removal loop leaves every broker-reported symbol alone. -/
theorem removePositionsLoop_lookup_mem (bsyms : List String) (s : String)
    (hs : s ∈ bsyms) :
    ∀ (iter live : List (String × Position)) (rmv : ℕ),
      lookupA (removePositionsLoop bsyms iter live rmv).1 s = lookupA live s := by
  intro iter
  induction iter with
  | nil =>
    intro live rmv
    rfl
  | cons e rest ih =>
    intro live rmv
    obtain ⟨k, p⟩ := e
    simp only [removePositionsLoop]
    by_cases hk : k ∈ bsyms
    · rw [if_pos hk, ih _ _]
    · have hks : k ≠ s := fun h => hk (h ▸ hs)
      rw [if_neg hk, ih _ _, lookupA_eraseA_ne _ _ _ hks]

/-- The removal loop leaves symbols it never iterates over alone. -/
theorem removePositionsLoop_lookup_not_iterated (bsyms : List String) (s : String) :
    ∀ (iter live : List (String × Position)) (rmv : ℕ),
      s ∉ iter.map Prod.fst →
      lookupA (removePositionsLoop bsyms iter live rmv).1 s = lookupA live s := by
  intro iter
  induction iter with
  | nil =>
    intro live rmv _
    rfl
  | cons e rest ih =>
    intro live rmv hs
    obtain ⟨k, p⟩ := e
    have hks : k ≠ s := fun h => hs (by simp [h])
    have hs' : s ∉ rest.map Prod.fst := fun h => hs (by simp [h])
    simp only [removePositionsLoop]
    by_cases hk : k ∈ bsyms
    · rw [if_pos hk, ih _ _ hs']
    · rw [if_neg hk, ih _ _ hs', lookupA_eraseA_ne _ _ _ hks]

/-- The removal loop erases every iterated symbol that the broker does not
report. -/
theorem removePositionsLoop_lookup_removed (bsyms : List String) (s : String)
    (hs : s ∉ bsyms) :
    ∀ (iter live : List (String × Position)) (rmv : ℕ),
      s ∈ iter.map Prod.fst →
      lookupA (removePositionsLoop bsyms iter live rmv).1 s = none := by
  intro iter
  induction iter with
  | nil =>
    intro live rmv hmem
    simp at hmem
  | cons e rest ih =>
    intro live rmv hmem
    obtain ⟨k, p⟩ := e
    simp only [removePositionsLoop]
    by_cases hk : k ∈ bsyms
    · have hks : s ≠ k := fun h => hs (h ▸ hk)
      have hmem' : s ∈ rest.map Prod.fst := by
        rcases (by simpa using hmem : s = k ∨ ∃ x, (s, x) ∈ rest) with h | ⟨x, hx⟩
        · exact absurd h hks
        · exact List.mem_map.mpr ⟨(s, x), hx, rfl⟩
      rw [if_pos hk, ih _ _ hmem']
    · rw [if_neg hk]
      by_cases hmem' : s ∈ rest.map Prod.fst
      · rw [ih _ _ hmem']
      · have hsk : s = k := by
          rcases (by simpa using hmem : s = k ∨ ∃ x, (s, x) ∈ rest) with h | ⟨x, hx⟩
          · exact h
          · exact absurd (List.mem_map.mpr ⟨(s, x), hx, rfl⟩) hmem'
        rw [removePositionsLoop_lookup_not_iterated]
        · rw [hsk, lookupA_eraseA_self]
        · exact hmem'

/-- The removal loop's counter counts the iterated symbols that the broker
does not report. -/
theorem removePositionsLoop_count (bsyms : List String) :
    ∀ (iter live : List (String × Position)) (rmv : ℕ),
      (removePositionsLoop bsyms iter live rmv).2
        = rmv + (iter.filter (fun e => decide (e.1 ∉ bsyms))).length := by
  intro iter
  induction iter with
  | nil =>
    intro live rmv
    rfl
  | cons e rest ih =>
    intro live rmv
    obtain ⟨k, p⟩ := e
    simp only [removePositionsLoop]
    by_cases hk : k ∈ bsyms
    · rw [if_pos hk, ih _ _, List.filter_cons]
      simp [hk]
    · rw [if_neg hk, ih _ _, List.filter_cons]
      simp [hk]
      omega

/-- **C7**: (i) for every local key set L and broker open-order key set B,
after the orders sub-sync the local set is exactly L ∪ B — in particular no
key is ever removed (L stays included) — and `local_orders_added` counts
exactly B \ L; (ii) concretely, local {A,B} with broker {B,C} yields local
{A,B,C} and `local_orders_added` = 1. -/
theorem reconcile_with_broker_orders_union :
    (∀ (B : Finset String) (bp : Except Unit (List (String × ℤ × ℚ))) (state : BotState)
        (rmOpt : Option RiskManager),
      (reconcile_with_broker (.ok B) bp state rmOpt).2.1.submitted_client_order_ids
          = state.submitted_client_order_ids ∪ B ∧
      state.submitted_client_order_ids ⊆
        (reconcile_with_broker (.ok B) bp state rmOpt).2.1.submitted_client_order_ids ∧
      (reconcile_with_broker (.ok B) bp state rmOpt).1.local_orders_added
          = (B \ state.submitted_client_order_ids).card) ∧
    ((reconcile_with_broker (.ok {"B", "C"}) (.error ()) stateAB
        none).2.1.submitted_client_order_ids = {"A", "B", "C"} ∧
      (reconcile_with_broker (.ok {"B", "C"}) (.error ()) stateAB none).1.local_orders_added
          = 1) := by
  constructor
  · intro B bp state rmOpt
    cases rmOpt with
    | none =>
      exact ⟨rfl, Finset.subset_union_left, rfl⟩
    | some rm =>
      cases bp with
      | error e =>
        exact ⟨rfl, Finset.subset_union_left, rfl⟩
      | ok bps =>
        exact ⟨rfl, Finset.subset_union_left, rfl⟩
  · exact ⟨by decide, by decide⟩

/-- **C8**: after the positions sub-sync the risk manager's position map
mirrors the broker exactly — for every symbol, its quantity and average price
are the broker's, and symbols the broker does not report are gone — while a
numerically matching local position object is left untouched; and the
counters are: `positions_added` = number of broker symbols absent locally,
`positions_synced` = number present locally but numerically different (equal
ones not counted), `positions_removed` = number of local symbols absent from
the broker's map. (Position maps are keyed by their symbol, the invariant
maintained by everything that writes them.) -/
theorem reconcile_with_broker_positions_mirror (bo : Except Unit (Finset String))
    (bps : List (String × ℤ × ℚ)) (state : BotState) (rm : RiskManager)
    (hbn : (bps.map Prod.fst).Nodup) (_hln : (rm.positions.map Prod.fst).Nodup) :
    ∃ rm', (reconcile_with_broker bo (.ok bps) state (some rm)).2.2 = some rm' ∧
      (∀ s, (lookupA rm'.positions s).map (fun p => (p.quantity, p.avg_price))
          = lookupA bps s) ∧
      (∀ s qty avg p, (s, (qty, avg)) ∈ bps → lookupA rm.positions s = some p →
        p.quantity = qty → p.avg_price = avg → lookupA rm'.positions s = some p) ∧
      (reconcile_with_broker bo (.ok bps) state (some rm)).1.positions_added
          = (bps.filter (fun e => (lookupA rm.positions e.1).isNone)).length ∧
      (reconcile_with_broker bo (.ok bps) state (some rm)).1.positions_synced
          = (bps.filter (fun e =>
              match lookupA rm.positions e.1 with
              | some p => decide (p.quantity ≠ e.2.1 ∨ p.avg_price ≠ e.2.2)
              | none => false)).length ∧
      (reconcile_with_broker bo (.ok bps) state (some rm)).1.positions_removed
          = (rm.positions.filter (fun e => decide (e.1 ∉ bps.map Prod.fst))).length := by
  refine ⟨{ rm with positions :=
      (removePositionsLoop (bps.map Prod.fst) rm.positions
        (syncPositionsLoop rm.positions bps rm.positions 0 0).1 0).1 },
    rfl, ?_, ?_, ?_, ?_, ?_⟩
  · -- the final map agrees with the broker on every symbol
    intro s
    by_cases hmem : s ∈ bps.map Prod.fst
    · obtain ⟨e, he, hfst⟩ := List.mem_map.mp hmem
      obtain ⟨s0, qty, avg⟩ := e
      cases hfst
      rw [removePositionsLoop_lookup_mem _ _ hmem]
      cases hsnap : lookupA rm.positions s0 with
      | none =>
        rw [syncPositionsLoop_lookup_new _ _ _ _ _ _ _ _ hbn he hsnap]
        simp [brokerPosition, lookupA_of_mem hbn he]
      | some p =>
        by_cases hd : p.quantity ≠ qty ∨ p.avg_price ≠ avg
        · rw [syncPositionsLoop_lookup_differs _ _ _ _ _ _ _ _ _ hbn he hsnap hd]
          simp [brokerPosition, lookupA_of_mem hbn he]
        · push_neg at hd
          rw [syncPositionsLoop_lookup_matches _ _ _ _ _ _ _ _ _ hbn he hsnap hd.1 hd.2,
            hsnap, lookupA_of_mem hbn he]
          simp [hd.1, hd.2]
    · have hnone : lookupA bps s = none := (lookupA_eq_none_iff _ _).mpr hmem
      rw [hnone]
      by_cases hloc : s ∈ rm.positions.map Prod.fst
      · rw [removePositionsLoop_lookup_removed _ _ hmem _ _ _ hloc]
        rfl
      · rw [removePositionsLoop_lookup_not_iterated _ _ _ _ _ hloc,
          syncPositionsLoop_lookup_not_mem _ _ _ _ _ _ hmem,
          (lookupA_eq_none_iff _ _).mpr hloc]
        rfl
  · -- numerically matching local positions are left untouched
    intro s qty avg p he hsnap hq ha
    have hmem : s ∈ bps.map Prod.fst := List.mem_map.mpr ⟨(s, (qty, avg)), he, rfl⟩
    rw [removePositionsLoop_lookup_mem _ _ hmem,
      syncPositionsLoop_lookup_matches _ _ _ _ _ _ _ _ _ hbn he hsnap hq ha]
    exact hsnap
  · -- positions_added
    show (syncPositionsLoop rm.positions bps rm.positions 0 0).2.2 = _
    simpa using (syncPositionsLoop_counts rm.positions bps rm.positions 0 0).2
  · -- positions_synced
    show (syncPositionsLoop rm.positions bps rm.positions 0 0).2.1 = _
    simpa using (syncPositionsLoop_counts rm.positions bps rm.positions 0 0).1
  · -- positions_removed
    show (removePositionsLoop (bps.map Prod.fst) rm.positions
      (syncPositionsLoop rm.positions bps rm.positions 0 0).1 0).2 = _
    simpa using removePositionsLoop_count (bps.map Prod.fst) rm.positions _ 0

theorem reconcile_with_broker_positions_mirror_witness :
    ((brokerPosList.map Prod.fst).Nodup ∧ (rmRecon.positions.map Prod.fst).Nodup) ∧
    (∃ rm', (reconcile_with_broker (.error ()) (.ok brokerPosList) stateW
        (some rmRecon)).2.2 = some rm' ∧
      (∀ s, (lookupA rm'.positions s).map (fun p => (p.quantity, p.avg_price))
          = lookupA brokerPosList s)) ∧
    (reconcile_with_broker (.error ()) (.ok brokerPosList) stateW
        (some rmRecon)).1.positions_added = 1 ∧
    (reconcile_with_broker (.error ()) (.ok brokerPosList) stateW
        (some rmRecon)).1.positions_synced = 0 ∧
    (reconcile_with_broker (.error ()) (.ok brokerPosList) stateW
        (some rmRecon)).1.positions_removed = 1 := by
  obtain ⟨rm', h1, h2, h3, h4, h5, h6⟩ :=
    reconcile_with_broker_positions_mirror (.error ()) brokerPosList stateW rmRecon
      (by decide) (by decide)
  exact ⟨⟨by decide, by decide⟩, ⟨rm', h1, h2⟩, h4.trans (by decide),
    h5.trans (by decide), h6.trans (by decide)⟩

end AiTrader
